import Mathlib

/-!
Verification development for the Medster analysis client
(`src/medster/tools/analysis/mcp_client.py` and
`src/medster/tools/analysis/vision_analyzer.py`).

The Python code is shallowly embedded: JSON values become an inductive
`Json`; Python dictionary/string primitives (`in`, `.get`, subscript,
`str()`, `len()`, `.split`, `.strip`, slicing) become executable Lean
functions with the same semantics, raising modelled Python exceptions
(`PyExc`) through `Except` where CPython raises; the `requests` transport
and the `json.loads` parser are external collaborators and enter as
function parameters (`net`, `loads`) describing the outcome of each call.
Logging (`mcp_log`) is a no-op when the debug flag is off (its default);
the one observable effect of a logging line, the eager evaluation of
`len(analysis_text)` inside an f-string argument at line 227 of
mcp_client.py, is modelled explicitly.
-/

set_option maxRecDepth 100000

namespace Medster

/-- JSON values (the result of `json.loads` / `response.json()`), also used
for the Python dict literals the code returns. Numbers are integers; the
code under study never manipulates float payloads. -/
inductive Json where
  | null
  | bool (b : Bool)
  | num (n : Int)
  | str (s : String)
  | arr (elems : List Json)
  | obj (fields : List (String × Json))

/-- Dictionary lookup on a JSON object; `none` for non-objects or missing keys. -/
def Json.lookup : Json → String → Option Json
  | .obj fields, key => (fields.find? (fun p => p.1 == key)).map (fun p => p.2)
  | _, _ => none

/-- Python truthiness (`if x:`) of a JSON value. -/
def Json.truthy : Json → Bool
  | .null => false
  | .bool b => b
  | .num n => n != 0
  | .str s => !s.isEmpty
  | .arr xs => !xs.isEmpty
  | .obj fs => !fs.isEmpty

/-- Modelled Python exceptions, each carrying the text `str(e)` would show.
`connectTimeout` is `requests.exceptions.ConnectTimeout`, which is a
subclass of both `ConnectionError` and `Timeout`; `timeout` is a plain
`requests.exceptions.Timeout` / `ReadTimeout`. -/
inductive PyExc where
  | timeout (msg : String)
  | connectTimeout (msg : String)
  | connectionError (msg : String)
  | attributeError (msg : String)
  | typeError (msg : String)
  | keyError (msg : String)
  | jsonDecodeError (msg : String)
  | other (msg : String)

/-- Which exceptions `except requests.exceptions.ConnectionError` catches. -/
def PyExc.isConnectionError : PyExc → Bool
  | .connectTimeout _ => true
  | .connectionError _ => true
  | _ => false

/-- `str(e)` for a caught exception. -/
def PyExc.toMessage : PyExc → String
  | .timeout m => m
  | .connectTimeout m => m
  | .connectionError m => m
  | .attributeError m => m
  | .typeError m => m
  | .keyError m => m
  | .jsonDecodeError m => m
  | .other m => m

/-! ### Python string primitives (executable, structurally recursive) -/

/-- Join a list of strings with a separator (Python `sep.join(parts)`). -/
def joinSep (sep : String) : List String → String
  | [] => ""
  | [x] => x
  | x :: y :: xs => x ++ sep ++ joinSep sep (y :: xs)

/-- Substring containment, Python `needle in haystack` on `str`. -/
def listContains (needle : List Char) : List Char → Bool
  | [] => needle.isEmpty
  | l@(_ :: rest) => needle.isPrefixOf l || listContains needle rest

/-- Python `sub in s`. -/
def pyContains (s sub : String) : Bool := listContains sub.data s.data

/-- Python `s.startswith(p)`. -/
def pyStartsWith (s p : String) : Bool := p.data.isPrefixOf s.data

/-- Python `s.endswith(p)`. -/
def pyEndsWith (s p : String) : Bool := p.data.reverse.isPrefixOf s.data.reverse

/-- Python `s.split("\n")` (splitting on a single newline separator,
which is the only separator the code uses). -/
def splitOnNewline : List Char → List (List Char)
  | [] => [[]]
  | c :: rest =>
    let r := splitOnNewline rest
    if c = '\n' then [] :: r
    else
      match r with
      | [] => [[c]]
      | grp :: grps => (c :: grp) :: grps

/-- Python `s.split("\n")` at the `String` level. -/
def pySplitLines (s : String) : List String := (splitOnNewline s.data).map String.mk

/-- The whitespace characters Python `str.strip()` removes (the ones that
can occur in the bodies handled here). -/
def isSpaceChar (c : Char) : Bool := c = ' ' || c = '\t' || c = '\n' || c = '\r'

/-- Python `s.strip()`. -/
def pyStrip (s : String) : String :=
  String.mk (((s.data.dropWhile isSpaceChar).reverse.dropWhile isSpaceChar).reverse)

/-- Python `s[n:]`. -/
def pyDrop (s : String) (n : Nat) : String := String.mk (s.data.drop n)

/-- Python `s[:n]` for a nonnegative bound. -/
def pyTake (s : String) (n : Nat) : String := String.mk (s.data.take n)

/-! ### Python `str()` / `repr()` of JSON-shaped values -/

mutual

/-- Python `repr` of a JSON-shaped value (the form `str` uses for elements
nested inside lists and dicts). String escaping inside `repr` is not
reproduced; no claim depends on it. -/
def pyRepr : Json → String
  | .null => "None"
  | .bool true => "True"
  | .bool false => "False"
  | .num n => toString n
  | .str s => "\x27" ++ s ++ "\x27"
  | .arr xs => "[" ++ joinSep ", " (pyReprList xs) ++ "]"
  | .obj fs => "\x7b" ++ joinSep ", " (pyReprFields fs) ++ "\x7d"

/-- `repr` of each element of a list. -/
def pyReprList : List Json → List String
  | [] => []
  | x :: xs => pyRepr x :: pyReprList xs

/-- `repr` of each key-value pair of a dict. -/
def pyReprFields : List (String × Json) → List String
  | [] => []
  | (k, v) :: fs => ("\x27" ++ k ++ "\x27: " ++ pyRepr v) :: pyReprFields fs

end

/-- Python `str()` of a JSON-shaped value (top level: a `str` renders as
itself, everything else as its `repr`). -/
def pyStr : Json → String
  | .str s => s
  | j => pyRepr j

/-! ### Python dict/sequence operations that can raise -/

/-- Python `key in value` for the shapes `json.loads` can produce: key
test on dicts, membership on lists, substring test on strings, and a
`TypeError` on the remaining non-iterable values. -/
def pyIn (key : String) : Json → Except PyExc Bool
  | .obj fs => .ok (fs.any (fun p => p.1 == key))
  | .arr xs => .ok (xs.any (fun j => match j with | .str s => s == key | _ => false))
  | .str s => .ok (pyContains s key)
  | .num _ => .error (.typeError "argument of type \x27int\x27 is not iterable")
  | .bool _ => .error (.typeError "argument of type \x27bool\x27 is not iterable")
  | .null => .error (.typeError "argument of type \x27NoneType\x27 is not iterable")

/-- Python subscript `value[key]` with a string key. -/
def pySubscript (j : Json) (key : String) : Except PyExc Json :=
  match j with
  | .obj _ =>
    match j.lookup key with
    | some v => .ok v
    | none => .error (.keyError key)
  | .arr _ => .error (.typeError "list indices must be integers or slices, not str")
  | .str _ => .error (.typeError "string indices must be integers")
  | _ => .error (.typeError "object is not subscriptable")

/-- Python `value.get(key, default)`: dict lookup with default, an
`AttributeError` on every non-dict. -/
def pyGet (j : Json) (key : String) (default : Json) : Except PyExc Json :=
  match j with
  | .obj _ => .ok ((j.lookup key).getD default)
  | .str _ => .error (.attributeError "\x27str\x27 object has no attribute \x27get\x27")
  | .arr _ => .error (.attributeError "\x27list\x27 object has no attribute \x27get\x27")
  | .num _ => .error (.attributeError "\x27int\x27 object has no attribute \x27get\x27")
  | .bool _ => .error (.attributeError "\x27bool\x27 object has no attribute \x27get\x27")
  | .null => .error (.attributeError "\x27NoneType\x27 object has no attribute \x27get\x27")

/-- Python `len(value)` for JSON-shaped values. -/
def pyLen : Json → Except PyExc Nat
  | .str s => .ok s.length
  | .arr xs => .ok xs.length
  | .obj fs => .ok fs.length
  | .null => .error (.typeError "object of type \x27NoneType\x27 has no len()")
  | .bool _ => .error (.typeError "object of type \x27bool\x27 has no len()")
  | .num _ => .error (.typeError "object of type \x27int\x27 has no len()")

/-! ### mcp_client.py: configuration and request assembly -/

/-- mcp_client.py lines 39-45: the synthetic-data disclaimer, exactly the
triple-quoted Python literal (leading newline, four content lines, a
blank line, trailing newline). -/
def SYNTHETIC_DATA_DISCLAIMER : String :=
  "\n[DISCLAIMER: This is SYNTHETIC patient data from the Coherent Data Set (SYNTHEA).\nThis is NOT real patient data - no PHI or HIPAA concerns apply.\nThis data is generated for medical AI research and education purposes.\nSource: https://synthea.mitre.org/downloads - Coherent Data Set]\n\n"

/-- Lines 103-108: map the Medster analysis type to the server analysis
type (`complicated` is rewritten to `comprehensive`). -/
def server_analysis_type (analysis_type : String) : String :=
  if analysis_type == "complicated" then "comprehensive" else analysis_type

/-- Line 112: prepend the synthetic-data disclaimer to the note text. -/
def note_with_disclaimer (note_text : String) : String :=
  SYNTHETIC_DATA_DISCLAIMER ++ note_text

/-- Lines 115-128: the MCP JSON-RPC request body. -/
def mcp_request (note_text analysis_type : String) : Json :=
  .obj [("jsonrpc", .str "2.0"), ("id", .num 1), ("method", .str "tools/call"),
        ("params", .obj
          [("name", .str "analyze_medical_document"),
           ("arguments", .obj
             [("document_content", .str (note_with_disclaimer note_text)),
              ("analysis_type", .str (server_analysis_type analysis_type))])])]

/-- Lines 156-162: the flat payload used for REST-style endpoints. -/
def restPayload (note_text analysis_type : String) : Json :=
  .obj [("document", .str (note_with_disclaimer note_text)),
        ("analysis_type", .str (server_analysis_type analysis_type))]

/-- Lines 156-177: the payload actually posted to an endpoint, chosen by
URL suffix (`/analyze_medical_document` means a REST endpoint). -/
def outboundPayload (endpoint note_text analysis_type : String) : Json :=
  if pyEndsWith endpoint "/analyze_medical_document" then restPayload note_text analysis_type
  else mcp_request note_text analysis_type

/-- Lines 136-138: the ordered endpoint list — exactly the configured
server URL. -/
def mcp_endpoints (mcp_server_url : String) : List String := [mcp_server_url]

/-! ### mcp_client.py: response decoding and classification -/

/-- An HTTP response as the code consumes it (`response.status_code`,
`response.text`; `response.json()` is `loads` applied to the text). -/
structure HttpResponse where
  status_code : Nat
  text : String

/-- The two ways one endpoint iteration can end: a `return` from inside the
loop with a finished record, or a `continue` carrying the updated
`last_error`. -/
inductive Attempt where
  | done (record : Json)
  | retry (lastError : String)

/-- Line 189: a 200 body is treated as SSE-framed when it contains the
token `event:` or starts with `:`. -/
def isSseFramed (text : String) : Bool :=
  pyContains text "event:" || pyStartsWith text ":"

/-- Lines 193-199: scan the split lines for the first one starting with
`data:`. -/
def findDataLine (lines : List String) : Option String :=
  lines.find? (fun line => pyStartsWith line "data:")

/-- Lines 182-205: obtain a JSON value from a 200 body — SSE-framed bodies
are scanned for a `data:` line whose remainder is parsed (for-else: if no
`data:` line exists the result is the literal dict
`{"error": "No data in SSE response"}`); other bodies are parsed whole.
`loads` is the `json.loads` collaborator; its `.error` outcome is a raised
`json.JSONDecodeError`. -/
def parseResponseBody (loads : String → Except String Json) (text : String) :
    Except PyExc Json :=
  if isSseFramed text then
    match findDataLine (pySplitLines text) with
    | some line =>
      match loads (pyStrip (pyDrop line 5)) with
      | .ok j => .ok j
      | .error m => .error (.jsonDecodeError m)
    | none => .ok (.obj [("error", .str "No data in SSE response")])
  else
    match loads text with
    | .ok j => .ok j
    | .error m => .error (.jsonDecodeError m)

/-- Lines 230-238: the in-band error record (`result.isError` truthy). -/
def inBandErrorRecord (analysis_type sty endpoint : String) (analysis_text : Json) : Json :=
  .obj [("analysis_type", .str analysis_type),
        ("server_analysis_type", .str sty),
        ("status", .str "error"),
        ("error", .str ("MCP Server Error: " ++ pyStr analysis_text)),
        ("source", .str ("MCP Medical Analysis Server (" ++ endpoint ++ ")"))]

/-- Lines 240-247: the content-bearing success record. -/
def contentSuccessRecord (analysis_type sty endpoint : String)
    (analysis_text tokens : Json) : Json :=
  .obj [("analysis_type", .str analysis_type),
        ("server_analysis_type", .str sty),
        ("status", .str "success"),
        ("analysis", analysis_text),
        ("tokens_used", tokens),
        ("source", .str ("MCP Medical Analysis Server (" ++ endpoint ++ ")"))]

/-- Lines 251-257: success record returning a `result` that has no
`content` field verbatim. -/
def rawResultRecord (analysis_type sty endpoint : String) (mcp_result : Json) : Json :=
  .obj [("analysis_type", .str analysis_type),
        ("server_analysis_type", .str sty),
        ("status", .str "success"),
        ("analysis", mcp_result),
        ("source", .str ("MCP Medical Analysis Server (" ++ endpoint ++ ")"))]

/-- Lines 264-271: success record for a flat REST-style response. -/
def restSuccessRecord (analysis_type sty endpoint : String)
    (analysis tokens : Json) : Json :=
  .obj [("analysis_type", .str analysis_type),
        ("server_analysis_type", .str sty),
        ("status", .str "success"),
        ("analysis", analysis),
        ("tokens_used", tokens),
        ("source", .str ("MCP Medical Analysis Server (" ++ endpoint ++ ")"))]

/-- Line 294 interpolation: `last_error` is `None` before any attempt. -/
def renderLastError : Option String → String
  | some s => s
  | none => "None"

/-- Lines 291-297: the aggregate record returned after all endpoints
failed. -/
def aggregateErrorRecord (analysis_type mcp_server_url : String)
    (lastError : Option String) : Json :=
  .obj [("analysis_type", .str analysis_type),
        ("status", .str "error"),
        ("error", .str ("All MCP endpoints failed. Last error: " ++ renderLastError lastError)),
        ("server_url", .str mcp_server_url),
        ("recommendation", .str "Check MCP server status and endpoint configuration")]

/-- Lines 299-305: the record of the outer `except requests.exceptions.Timeout`
handler. Every exception raised during an endpoint round-trip is already
caught by the handlers at lines 282-287 inside the loop, so this record is
unreachable from a transport timeout. -/
def timeoutRecord (analysis_type : String) : Json :=
  .obj [("analysis_type", .str analysis_type),
        ("status", .str "error"),
        ("error", .str "MCP server request timed out"),
        ("recommendation", .str "Try \x27comprehensive\x27 or \x27basic\x27 analysis type for faster results")]

/-- Lines 306-311: the record of the outer generic `except Exception`
handler (equally unreachable: the loop catches every exception first). -/
def genericExceptionRecord (analysis_type msg : String) : Json :=
  .obj [("analysis_type", .str analysis_type),
        ("status", .str "error"),
        ("error", .str msg)]

/-- Lines 282-287: turn a caught per-endpoint exception into the
`last_error` string (`ConnectionError` instances get the fixed message,
every other exception its `str(e)`). -/
def handleException (endpoint : String) (e : PyExc) : String :=
  if e.isConnectionError then "Connection failed to " ++ endpoint else e.toMessage

/-- Lines 222-225: the analysis text extracted from a `content` value — a
non-empty list yields `content[0].get("text", str(content))` (an
`AttributeError` when `content[0]` is not a dict), everything else its
`str()`. -/
def extractAnalysisText (content : Json) : Except PyExc Json :=
  match content with
  | .arr (c0 :: _) => pyGet c0 "text" (.str (pyStr content))
  | _ => .ok (.str (pyStr content))

/-- Lines 213-271: classify a decoded JSON value. `isinstance(mcp_result,
dict) and "content" in mcp_result` is exactly `(mcp_result.lookup
"content").isSome`, since `lookup` is `none` on every non-dict. The
`let _ ...` step is line 227: the logging f-string evaluates
`len(analysis_text)` eagerly even with logging disabled, which raises a
`TypeError` when the extracted value has no length. -/
def classifyResult (analysis_type sty endpoint : String) (result : Json) :
    Except PyExc Attempt :=
  match pyIn "result" result with
  | .error e => .error e
  | .ok true =>
    match pySubscript result "result" with
    | .error e => .error e
    | .ok mcp_result =>
      match mcp_result.lookup "content" with
      | some content =>
        match extractAnalysisText content with
        | .error e => .error e
        | .ok analysis_text =>
          match pyLen analysis_text with
          | .error e => .error e
          | .ok _ =>
            match pyGet mcp_result "isError" .null with
            | .error e => .error e
            | .ok isErr =>
              if isErr.truthy then
                .ok (.done (inBandErrorRecord analysis_type sty endpoint analysis_text))
              else
                match pyGet mcp_result "tokens_used" (.num 0) with
                | .error e => .error e
                | .ok tokens =>
                  .ok (.done (contentSuccessRecord analysis_type sty endpoint analysis_text tokens))
      | none => .ok (.done (rawResultRecord analysis_type sty endpoint mcp_result))
  | .ok false =>
    match pyIn "error" result with
    | .error e => .error e
    | .ok true =>
      match pySubscript result "error" with
      | .error e => .error e
      | .ok errVal =>
        match pyGet errVal "message" (.str (pyStr errVal)) with
        | .error e => .error e
        | .ok msg => .ok (.retry (pyStr msg))
    | .ok false =>
      match pyGet result "analysis" result with
      | .error e => .error e
      | .ok analysis =>
        match pyGet result "tokens_used" (.num 0) with
        | .error e => .error e
        | .ok tokens =>
          .ok (.done (restSuccessRecord analysis_type sty endpoint analysis tokens))

/-- Lines 141-287: one endpoint iteration. `net` is the `requests.post`
collaborator (endpoint and posted payload in; response or raised
exception out; the 120-unit timeout is the transport boundary's concern).
Exceptions from the round-trip, the body parse and the classification are
caught by the two `except` clauses at lines 282-287. -/
def attemptEndpoint (loads : String → Except String Json)
    (net : String → Json → Except PyExc HttpResponse)
    (analysis_type note_text endpoint : String) : Attempt :=
  match net endpoint (outboundPayload endpoint note_text analysis_type) with
  | .error e => .retry (handleException endpoint e)
  | .ok resp =>
    if resp.status_code = 200 then
      match parseResponseBody loads resp.text with
      | .error e => .retry (handleException endpoint e)
      | .ok result =>
        match classifyResult analysis_type (server_analysis_type analysis_type) endpoint result with
        | .error e => .retry (handleException endpoint e)
        | .ok a => a
    else if resp.status_code = 404 then
      .retry ("Endpoint not found: " ++ endpoint)
    else
      .retry ("Status " ++ toString resp.status_code ++ ": " ++ pyTake resp.text 200)

/-- Lines 140-297: the endpoint loop with its `last_error` accumulator; an
exhausted list produces the aggregate failure record. -/
def endpointLoop (loads : String → Except String Json)
    (net : String → Json → Except PyExc HttpResponse)
    (analysis_type note_text mcp_server_url : String) :
    List String → Option String → Json
  | [], lastError => aggregateErrorRecord analysis_type mcp_server_url lastError
  | endpoint :: rest, _lastError =>
    match attemptEndpoint loads net analysis_type note_text endpoint with
    | .done r => r
    | .retry msg => endpointLoop loads net analysis_type note_text mcp_server_url rest (some msg)

/-- mcp_client.py lines 98-311: `analyze_medical_document`. The body of
the outer `try` never lets an exception escape (every raise happens inside
the per-endpoint `try` of lines 141-287), so the outer handlers of lines
299-311 never fire and the function is the endpoint loop. -/
def analyze_medical_document (mcp_server_url : String)
    (loads : String → Except String Json)
    (net : String → Json → Except PyExc HttpResponse)
    (note_text analysis_type : String) : Json :=
  endpointLoop loads net analysis_type note_text mcp_server_url
    (mcp_endpoints mcp_server_url) none

/-! ### Invariants of the records `analyze_medical_document` returns -/

/-- The canonical-result invariant: the record names the originally
requested mode, its status is `success` or `error`, and exactly one of
the `analysis` and `error` fields is present, matching the status. -/
def RecordOk (analysis_type : String) (r : Json) : Prop :=
  r.lookup "analysis_type" = some (.str analysis_type) ∧
  ((r.lookup "status" = some (.str "success") ∧
      (r.lookup "analysis").isSome = true ∧ r.lookup "error" = none) ∨
   (r.lookup "status" = some (.str "error") ∧
      (r.lookup "error").isSome = true ∧ r.lookup "analysis" = none))

lemma inBandErrorRecord_ok (t sty ep : String) (x : Json) :
    RecordOk t (inBandErrorRecord t sty ep x) :=
  ⟨rfl, Or.inr ⟨rfl, rfl, rfl⟩⟩

lemma contentSuccessRecord_ok (t sty ep : String) (x tok : Json) :
    RecordOk t (contentSuccessRecord t sty ep x tok) :=
  ⟨rfl, Or.inl ⟨rfl, rfl, rfl⟩⟩

lemma rawResultRecord_ok (t sty ep : String) (x : Json) :
    RecordOk t (rawResultRecord t sty ep x) :=
  ⟨rfl, Or.inl ⟨rfl, rfl, rfl⟩⟩

lemma restSuccessRecord_ok (t sty ep : String) (x tok : Json) :
    RecordOk t (restSuccessRecord t sty ep x tok) :=
  ⟨rfl, Or.inl ⟨rfl, rfl, rfl⟩⟩

lemma aggregateErrorRecord_ok (t url : String) (le : Option String) :
    RecordOk t (aggregateErrorRecord t url le) :=
  ⟨rfl, Or.inr ⟨rfl, rfl, rfl⟩⟩

/-- Every record that `classifyResult` finishes with satisfies the
canonical-result invariant. -/
lemma classifyResult_ok (t sty ep : String) (result : Json) (r : Json)
    (h : classifyResult t sty ep result = .ok (.done r)) : RecordOk t r := by
  unfold classifyResult at h
  repeat' split at h
  all_goals first
    | exact Except.noConfusion h
    | (injection h with h1; first
        | exact Attempt.noConfusion h1
        | (injection h1 with h2; subst h2;
           first
             | exact inBandErrorRecord_ok ..
             | exact contentSuccessRecord_ok ..
             | exact rawResultRecord_ok ..))

/-- Every record returned from inside the endpoint loop satisfies the
canonical-result invariant. -/
lemma attemptEndpoint_ok (loads : String → Except String Json)
    (net : String → Json → Except PyExc HttpResponse)
    (t note ep : String) (r : Json)
    (h : attemptEndpoint loads net t note ep = .done r) : RecordOk t r := by
  unfold attemptEndpoint at h
  repeat' split at h
  all_goals first
    | exact Attempt.noConfusion h
    | (subst h; next heq => exact classifyResult_ok _ _ _ _ _ heq)

/-- Every record the endpoint loop produces satisfies the canonical-result
invariant. -/
lemma endpointLoop_ok (loads : String → Except String Json)
    (net : String → Json → Except PyExc HttpResponse)
    (t note url : String) :
    ∀ (eps : List String) (le : Option String),
      RecordOk t (endpointLoop loads net t note url eps le) := by
  intro eps
  induction eps with
  | nil => intro le; exact aggregateErrorRecord_ok ..
  | cons ep rest ih =>
    intro le
    unfold endpointLoop
    split
    next r heq => exact attemptEndpoint_ok loads net t note ep r heq
    next => exact ih _

/-- The full call always satisfies the canonical-result invariant. -/
lemma analyze_medical_document_ok (url : String)
    (loads : String → Except String Json)
    (net : String → Json → Except PyExc HttpResponse)
    (note t : String) :
    RecordOk t (analyze_medical_document url loads net note t) :=
  endpointLoop_ok loads net t note url (mcp_endpoints url) none

/-! ### vision_analyzer.py -/

/-- An image record: a Python dict as pydantic delivers it
(`List[Dict[str, Any]]`). -/
abbrev PyDict := List (String × Json)

/-- Lookup in an image dict (`key in img` / `img[key]` on a dict that is
guaranteed to be a dict by the input schema). -/
def dictLookup (d : PyDict) (key : String) : Option Json :=
  (d.find? (fun p => p.1 == key)).map (fun p => p.2)

/-- Python list slicing `l[:m]` with an `int` bound: a nonnegative bound
takes that many elements, a negative bound stops `|m|` before the end
(clipped at zero). -/
def pySliceTo {α : Type} (l : List α) (m : Int) : List α :=
  if 0 ≤ m then l.take m.toNat else l.take ((l.length : Int) + m).toNat

/-- vision_analyzer.py lines 67-72: the always-string context parts —
`f"Image {idx + 1}"` plus the optional patient and modality f-strings
(`idx` is 0-based, from `enumerate`). -/
def baseContextParts (idx : Nat) (img : PyDict) : List String :=
  ["Image " ++ toString (idx + 1)]
    ++ (match dictLookup img "patient_id" with
        | some v => ["Patient: " ++ pyStr v]
        | none => [])
    ++ (match dictLookup img "modality" with
        | some v => ["Modality: " ++ pyStr v]
        | none => [])

/-- Lines 66-75: the full context parts for one kept entry. Appending the
raw `img["context"]` value and then calling `" | ".join(...)` raises a
`TypeError` when that value is not a string; the other parts are
f-strings and always strings. -/
def contextParts (idx : Nat) (img : PyDict) : Except PyExc (List String) :=
  match dictLookup img "context" with
  | some (.str c) => .ok (baseContextParts idx img ++ [c])
  | some _ => .error (.typeError "sequence item 3: expected str instance")
  | none => .ok (baseContextParts idx img)

/-- vision_analyzer.py lines 60-75: the extraction loop over
`images_to_analyze`, with `idx` from `enumerate`. Entries without an
`image_base64` key are skipped (`continue`); for kept entries the base64
value is collected and the joined context line is built. -/
def imageLoop : List PyDict → Nat → Except PyExc (List Json × List String)
  | [], _ => .ok ([], [])
  | img :: rest, idx =>
    match dictLookup img "image_base64" with
    | none => imageLoop rest (idx + 1)
    | some b64 =>
      match contextParts idx img with
      | .error e => .error e
      | .ok parts =>
        match imageLoop rest (idx + 1) with
        | .error e => .error e
        | .ok (bs, cs) => .ok (b64 :: bs, joinSep " | " parts :: cs)

/-- Lines 77-81: the record returned when no entry carried an
`image_base64` key — produced before the vision model is consulted. -/
def noValidImagesRecord : Json :=
  .obj [("status", .str "error"),
        ("error", .str "No valid images found in image_data (missing \x27image_base64\x27 key)")]

/-- Lines 84-97: the prompt assembled for the vision model. -/
def buildVisionPrompt (analysis_prompt : String) (ctxs : List String) : String :=
  "You are analyzing medical images for clinical decision support.\n\n"
    ++ analysis_prompt
    ++ "\n\nContext for each image:\n"
    ++ joinSep "\n" (ctxs.map (fun c => "- " ++ c))
    ++ "\n\nFor each image, provide:\n1. Patient ID (if provided)\n2. Key visual findings\n3. Direct answer to the clinical question\n4. Any critical findings requiring immediate attention\n\nFormat your response as structured findings for each image."

/-- Lines 109-115: the success record. -/
def visionSuccessRecord (analysis_prompt : String) (analyzed : Nat)
    (analysis_text : String) (ctxs : List String) : Json :=
  .obj [("status", .str "success"),
        ("images_analyzed", .num analyzed),
        ("clinical_question", .str analysis_prompt),
        ("vision_analysis", .str analysis_text),
        ("patient_contexts", .arr (ctxs.map .str))]

/-- Lines 117-122: the record of the `except Exception` handler. -/
def visionExceptionRecord (msg : String) (attempted : Nat) : Json :=
  .obj [("status", .str "error"),
        ("error", .str ("Vision analysis failed: " ++ msg)),
        ("images_attempted", .num attempted)]

/-- vision_analyzer.py lines 29-122: `analyze_medical_images`. `llm` is
the `call_llm` collaborator together with the text extraction of lines
100-107 (prompt and base64 images in; extracted analysis text or raised
exception out). -/
def analyze_medical_images (llm : String → List Json → Except PyExc String)
    (analysis_prompt : String) (image_data : List PyDict) (max_images : Int) : Json :=
  match imageLoop (pySliceTo image_data max_images) 0 with
  | .error e => visionExceptionRecord e.toMessage image_data.length
  | .ok (base64_images, patient_context) =>
    if base64_images.isEmpty then noValidImagesRecord
    else
      match llm (buildVisionPrompt analysis_prompt patient_context) base64_images with
      | .error e => visionExceptionRecord e.toMessage image_data.length
      | .ok analysis_text =>
        visionSuccessRecord analysis_prompt base64_images.length analysis_text patient_context

/-! ### Bridging lemmas between `lookup` and the raising dict operations -/

lemma find?_isSome_eq_any (l : List (String × Json)) (k : String) :
    (l.find? (fun p => p.1 == k)).isSome = l.any (fun p => p.1 == k) := by
  induction l with
  | nil => rfl
  | cons p rest ih =>
    cases hpk : (p.1 == k) with
    | true => simp [List.find?_cons_of_pos, hpk, List.any_cons]
    | false => simp [List.find?_cons_of_neg, hpk, List.any_cons, ih]

lemma pyIn_obj (k : String) (fs : List (String × Json)) :
    pyIn k (.obj fs) = .ok (((Json.obj fs).lookup k).isSome) := by
  simp [pyIn, Json.lookup, Option.isSome_map, find?_isSome_eq_any]

lemma pyIn_true_of_lookup {j : Json} {k : String} {v : Json}
    (h : j.lookup k = some v) : pyIn k j = .ok true := by
  cases j with
  | obj fs => rw [pyIn_obj, h]; rfl
  | null => exact Option.noConfusion h
  | bool b => exact Option.noConfusion h
  | num n => exact Option.noConfusion h
  | str s => exact Option.noConfusion h
  | arr xs => exact Option.noConfusion h

lemma pySubscript_eq_of_lookup {j : Json} {k : String} {v : Json}
    (h : j.lookup k = some v) : pySubscript j k = .ok v := by
  cases j with
  | obj fs => unfold pySubscript; rw [h]
  | null => exact Option.noConfusion h
  | bool b => exact Option.noConfusion h
  | num n => exact Option.noConfusion h
  | str s => exact Option.noConfusion h
  | arr xs => exact Option.noConfusion h

lemma pyGet_obj_eq (fs : List (String × Json)) (k : String) (d : Json) :
    pyGet (.obj fs) k d = .ok (((Json.obj fs).lookup k).getD d) := rfl

lemma pyGet_eq_of_lookup {j : Json} {k : String} {v : Json} (d : Json)
    (h : j.lookup k = some v) : pyGet j k d = .ok v := by
  cases j with
  | obj fs => rw [pyGet_obj_eq, h]; rfl
  | null => exact Option.noConfusion h
  | bool b => exact Option.noConfusion h
  | num n => exact Option.noConfusion h
  | str s => exact Option.noConfusion h
  | arr xs => exact Option.noConfusion h

lemma obj_of_lookup_some {j : Json} {k : String} {v : Json}
    (h : j.lookup k = some v) : ∃ fs, j = .obj fs := by
  cases j with
  | obj fs => exact ⟨fs, rfl⟩
  | null => exact Option.noConfusion h
  | bool b => exact Option.noConfusion h
  | num n => exact Option.noConfusion h
  | str s => exact Option.noConfusion h
  | arr xs => exact Option.noConfusion h

/-! ### Claim theorems -/

/-- Claim C5: for every call with `analysis_mode = complicated`, the mode
transmitted on the wire is `comprehensive` — in the JSON-RPC request
arguments and in the REST payload alike — while the result record
returned by `analyze_medical_document` still reports the originally
requested mode `complicated` in its `analysis_type` field, whatever the
transport and decode outcome. -/
theorem C5_complicated_alias_rewritten (note url : String)
    (loads : String → Except String Json)
    (net : String → Json → Except PyExc HttpResponse) :
    server_analysis_type "complicated" = "comprehensive"
    ∧ ((((mcp_request note "complicated").lookup "params").bind
          (fun p => p.lookup "arguments")).bind
        (fun a => a.lookup "analysis_type")) = some (.str "comprehensive")
    ∧ (restPayload note "complicated").lookup "analysis_type"
        = some (.str "comprehensive")
    ∧ (analyze_medical_document url loads net note "complicated").lookup "analysis_type"
        = some (.str "complicated") :=
  ⟨rfl, rfl, rfl, (analyze_medical_document_ok url loads net note "complicated").1⟩

/-- Claim C6: for every document text and analysis mode, the document
content placed in the outbound payload (JSON-RPC `document_content` and
REST `document` alike) is exactly the synthetic-data disclaimer followed
by the original text; dropping the disclaimer gives back the original
character sequence unchanged. -/
theorem C6_disclaimer_prepended_once (note ty : String) :
    ((((mcp_request note ty).lookup "params").bind
        (fun p => p.lookup "arguments")).bind
      (fun a => a.lookup "document_content"))
        = some (.str (SYNTHETIC_DATA_DISCLAIMER ++ note))
    ∧ (restPayload note ty).lookup "document"
        = some (.str (SYNTHETIC_DATA_DISCLAIMER ++ note))
    ∧ (SYNTHETIC_DATA_DISCLAIMER ++ note).data
        = SYNTHETIC_DATA_DISCLAIMER.data ++ note.data
    ∧ ((SYNTHETIC_DATA_DISCLAIMER ++ note).data).drop
        SYNTHETIC_DATA_DISCLAIMER.data.length = note.data := by
  refine ⟨rfl, rfl, rfl, ?_⟩
  rw [show (SYNTHETIC_DATA_DISCLAIMER ++ note).data
        = SYNTHETIC_DATA_DISCLAIMER.data ++ note.data from rfl]
  exact List.drop_left _ _

/-- Claim C8: for every input and every transport or decoder outcome —
`net` and `loads` range over all possible collaborator behaviours,
including every endpoint failing — `analyze_medical_document` is a total
function returning a record whose `status` field is `success` or `error`;
no modelled exception escapes to the caller (every raise is caught by the
handlers inside the endpoint loop). -/
theorem C8_always_well_formed_result (url : String)
    (loads : String → Except String Json)
    (net : String → Json → Except PyExc HttpResponse) (note ty : String) :
    (analyze_medical_document url loads net note ty).lookup "status"
        = some (.str "success")
    ∨ (analyze_medical_document url loads net note ty).lookup "status"
        = some (.str "error") := by
  rcases (analyze_medical_document_ok url loads net note ty).2 with h | h
  · exact Or.inl h.1
  · exact Or.inr h.1

/-- Claim C9: every record returned by `analyze_medical_document`
populates exactly one of the `analysis` and `error` fields, and which one
matches the `status` field: success records carry `analysis` and no
`error`, error records carry `error` and no `analysis`. -/
theorem C9_exactly_one_of_analysis_and_error (url : String)
    (loads : String → Except String Json)
    (net : String → Json → Except PyExc HttpResponse) (note ty : String) :
    ((analyze_medical_document url loads net note ty).lookup "status"
        = some (.str "success")
      ∧ ((analyze_medical_document url loads net note ty).lookup "analysis").isSome = true
      ∧ (analyze_medical_document url loads net note ty).lookup "error" = none)
    ∨ ((analyze_medical_document url loads net note ty).lookup "status"
        = some (.str "error")
      ∧ ((analyze_medical_document url loads net note ty).lookup "error").isSome = true
      ∧ (analyze_medical_document url loads net note ty).lookup "analysis" = none) :=
  (analyze_medical_document_ok url loads net note ty).2

/-- Claim C2 (code bug): when the single configured endpoint's round-trip
raises `requests.exceptions.Timeout`, the generic `except Exception` at
line 285 catches it inside the loop, so the call returns the aggregate
all-endpoints-failed record — never the distinct timeout record of lines
299-305 with its lighter-analysis-mode guidance, which is unreachable. -/
theorem C2_timeout_reaches_aggregate_not_timeout_record
    (url note ty msg : String) (loads : String → Except String Json) :
    analyze_medical_document url loads (fun _ _ => .error (.timeout msg)) note ty
        = aggregateErrorRecord ty url (some msg)
    ∧ aggregateErrorRecord ty url (some msg) ≠ timeoutRecord ty := by
  refine ⟨rfl, fun h => ?_⟩
  exact Option.noConfusion (congrArg (fun j => Json.lookup j "server_url") h)

/-! Concrete transport fixtures used by counterexamples and witnesses. -/

/-- The default configured server URL (mcp_client.py line 27). -/
def exampleUrl : String := "http://localhost:8000"

/-- A flat REST-style 200 body. -/
def plainAnalysisBody : String := "\x7b\"analysis\": \"x\", \"tokens_used\": 5\x7d"

/-- The parse of `plainAnalysisBody`. -/
def plainAnalysisJson : Json := .obj [("analysis", .str "x"), ("tokens_used", .num 5)]

/-- A `json.loads` that parses exactly `plainAnalysisBody`. -/
def loadsPlainAnalysis : String → Except String Json := fun s =>
  if s == plainAnalysisBody then .ok plainAnalysisJson
  else .error "Expecting value: line 1 column 1 (char 0)"

/-- A transport whose every round-trip answers 200 with
`plainAnalysisBody`. -/
def netPlainAnalysis : String → Json → Except PyExc HttpResponse :=
  fun _ _ => .ok ⟨200, plainAnalysisBody⟩

/-- Claim C1 (counterexample): a call with empty `document_text` does not
fail with any `InvalidInput` error — the request is built (with the
disclaimer alone as document content), transmitted, and a healthy
endpoint makes the call succeed. -/
theorem C1_counterexample :
    ((((mcp_request "" "basic").lookup "params").bind
        (fun p => p.lookup "arguments")).bind
      (fun a => a.lookup "document_content"))
        = some (.str SYNTHETIC_DATA_DISCLAIMER)
    ∧ analyze_medical_document exampleUrl loadsPlainAnalysis netPlainAnalysis "" "basic"
        = restSuccessRecord "basic" "basic" exampleUrl (.str "x") (.num 5)
    ∧ (analyze_medical_document exampleUrl loadsPlainAnalysis netPlainAnalysis "" "basic").lookup "status"
        = some (.str "success") :=
  ⟨rfl, rfl, rfl⟩

/-- Claim C1 (amended): `analyze_medical_document` performs no empty-input
validation. A call with empty `document_text` is processed like any
other: the outbound payload carries exactly the disclaimer as document
content, and the call returns an ordinary well-formed record determined
by the transport and decode outcome. -/
theorem C1_empty_document_not_rejected (ty url : String)
    (loads : String → Except String Json)
    (net : String → Json → Except PyExc HttpResponse) :
    ((((mcp_request "" ty).lookup "params").bind
        (fun p => p.lookup "arguments")).bind
      (fun a => a.lookup "document_content"))
        = some (.str SYNTHETIC_DATA_DISCLAIMER)
    ∧ (restPayload "" ty).lookup "document" = some (.str SYNTHETIC_DATA_DISCLAIMER)
    ∧ RecordOk ty (analyze_medical_document url loads net "" ty) :=
  ⟨rfl, rfl, analyze_medical_document_ok url loads net "" ty⟩

/-! ### Reduction helpers for single-endpoint runs -/

/-- The dict produced by the for-else at line 201. -/
def sseNoDataJson : Json := .obj [("error", .str "No data in SSE response")]

lemma findDataLine_eq_none {lines : List String}
    (h : lines.all (fun l => !pyStartsWith l "data:") = true) :
    findDataLine lines = none := by
  induction lines with
  | nil => rfl
  | cons l rest ih =>
    simp only [List.all_cons, Bool.and_eq_true, Bool.not_eq_true'] at h
    unfold findDataLine at ih ⊢
    rw [List.find?_cons_of_neg _ (by simp [h.1])]
    exact ih h.2

lemma attemptEndpoint_200 (loads : String → Except String Json)
    (net : String → Json → Except PyExc HttpResponse)
    (ty note ep body : String)
    (hnet : net ep (outboundPayload ep note ty) = .ok ⟨200, body⟩) :
    attemptEndpoint loads net ty note ep =
      match parseResponseBody loads body with
      | .error e => .retry (handleException ep e)
      | .ok result =>
        match classifyResult ty (server_analysis_type ty) ep result with
        | .error e => .retry (handleException ep e)
        | .ok a => a := by
  unfold attemptEndpoint
  rw [hnet]
  rfl

lemma analyze_single (url : String) (loads : String → Except String Json)
    (net : String → Json → Except PyExc HttpResponse) (note ty : String) :
    analyze_medical_document url loads net note ty =
      match attemptEndpoint loads net ty note url with
      | .done r => r
      | .retry msg => aggregateErrorRecord ty url (some msg) := rfl

/-- Claim C3: for every 200 body classified as SSE-framed (it contains
`event:` or starts with `:`) in which no line starts with `data:`, the
decode step yields exactly the dict `{"error": "No data in SSE response"}`
and the endpoint hard-fails — the call never reports success and carries
no analysis. -/
theorem C3_sse_without_data_line_hard_failure
    (url note ty body : String) (loads : String → Except String Json)
    (net : String → Json → Except PyExc HttpResponse)
    (hsse : isSseFramed body = true)
    (hnd : (pySplitLines body).all (fun l => !pyStartsWith l "data:") = true)
    (hnet : net url (outboundPayload url note ty) = .ok ⟨200, body⟩) :
    parseResponseBody loads body = .ok sseNoDataJson
    ∧ (analyze_medical_document url loads net note ty).lookup "status"
        = some (.str "error")
    ∧ (analyze_medical_document url loads net note ty).lookup "analysis" = none := by
  have hparse : parseResponseBody loads body = .ok sseNoDataJson := by
    unfold parseResponseBody
    rw [hsse, findDataLine_eq_none hnd]
    rfl
  have hattempt : attemptEndpoint loads net ty note url
      = .retry "\x27str\x27 object has no attribute \x27get\x27" := by
    rw [attemptEndpoint_200 loads net ty note url body hnet, hparse]
    rfl
  refine ⟨hparse, ?_, ?_⟩ <;> rw [analyze_single, hattempt] <;> rfl

/-- A 200 SSE response with an event line and a ping but no data line. -/
def sseNoDataBody : String := "event: message\n: ping"

/-- A transport whose every round-trip answers 200 with `sseNoDataBody`. -/
def netSseNoData : String → Json → Except PyExc HttpResponse :=
  fun _ _ => .ok ⟨200, sseNoDataBody⟩

/-- Witness for C3 at a concrete SSE body with no data line. -/
theorem C3_witness :
    isSseFramed sseNoDataBody = true
    ∧ (pySplitLines sseNoDataBody).all (fun l => !pyStartsWith l "data:") = true
    ∧ netSseNoData exampleUrl (outboundPayload exampleUrl "note" "basic")
        = .ok ⟨200, sseNoDataBody⟩
    ∧ (parseResponseBody loadsPlainAnalysis sseNoDataBody = .ok sseNoDataJson
       ∧ (analyze_medical_document exampleUrl loadsPlainAnalysis netSseNoData "note" "basic").lookup "status"
           = some (.str "error")
       ∧ (analyze_medical_document exampleUrl loadsPlainAnalysis netSseNoData "note" "basic").lookup "analysis"
           = none) :=
  ⟨rfl, rfl, rfl,
    C3_sse_without_data_line_hard_failure exampleUrl "note" "basic" sseNoDataBody
      loadsPlainAnalysis netSseNoData rfl rfl rfl⟩

/-- Claim C4: for every 200 response decoded into a JSON-RPC success
envelope whose `result` object carries a `content` field (first element
bearing the text) and whose `result.isError` is truthy in Python's sense,
the call returns `status = error` with an error message quoting the
extracted content text — despite the 200 status and the result-shaped
envelope. -/
theorem C4_in_band_error_wins_over_envelope_shape
    (url note ty body t : String) (loads : String → Except String Json)
    (net : String → Json → Except PyExc HttpResponse)
    (result mcp_result c0 : Json) (cs : List Json)
    (hnet : net url (outboundPayload url note ty) = .ok ⟨200, body⟩)
    (hparse : parseResponseBody loads body = .ok result)
    (hres : result.lookup "result" = some mcp_result)
    (hcontent : mcp_result.lookup "content" = some (.arr (c0 :: cs)))
    (htext : c0.lookup "text" = some (.str t))
    (herr : (((mcp_result.lookup "isError").getD .null)).truthy = true) :
    analyze_medical_document url loads net note ty
        = inBandErrorRecord ty (server_analysis_type ty) url (.str t)
    ∧ (analyze_medical_document url loads net note ty).lookup "status"
        = some (.str "error")
    ∧ (analyze_medical_document url loads net note ty).lookup "error"
        = some (.str ("MCP Server Error: " ++ t)) := by
  obtain ⟨mfs, hm⟩ := obj_of_lookup_some hcontent
  subst hm
  have hext : extractAnalysisText (Json.arr (c0 :: cs)) = .ok (.str t) := by
    unfold extractAnalysisText
    exact pyGet_eq_of_lookup _ htext
  have hclass : classifyResult ty (server_analysis_type ty) url result
      = .ok (.done (inBandErrorRecord ty (server_analysis_type ty) url (.str t))) := by
    unfold classifyResult
    simp only [pyIn_true_of_lookup hres, pySubscript_eq_of_lookup hres, hcontent, hext,
               pyGet_obj_eq, pyLen, herr, if_true]
  have hatt : attemptEndpoint loads net ty note url
      = .done (inBandErrorRecord ty (server_analysis_type ty) url (.str t)) := by
    rw [attemptEndpoint_200 loads net ty note url body hnet, hparse]
    show (match classifyResult ty (server_analysis_type ty) url result with
          | .error e => Attempt.retry (handleException url e)
          | .ok a => a) = _
    rw [hclass]
  refine ⟨?_, ?_, ?_⟩ <;> rw [analyze_single, hatt] <;> rfl

/-- The decoded in-band-error envelope used as C4 witness input. -/
def inBandErrorEnvelope : Json :=
  .obj [("result", .obj
    [("content", .arr [.obj [("text", .str "Claude refused the request")]]),
     ("isError", .bool true)])]

/-- A `json.loads` answering the in-band-error envelope for every body. -/
def loadsInBandError : String → Except String Json :=
  fun _ => .ok inBandErrorEnvelope

/-- A transport answering 200 with a plain (non-SSE) body. -/
def netPlainBody : String → Json → Except PyExc HttpResponse :=
  fun _ _ => .ok ⟨200, "irrelevant-body"⟩

/-- Witness for C4 at a concrete truthy `isError` envelope. -/
theorem C4_witness :
    netPlainBody exampleUrl (outboundPayload exampleUrl "note" "basic")
        = .ok ⟨200, "irrelevant-body"⟩
    ∧ parseResponseBody loadsInBandError "irrelevant-body" = .ok inBandErrorEnvelope
    ∧ inBandErrorEnvelope.lookup "result"
        = some (.obj [("content", .arr [.obj [("text", .str "Claude refused the request")]]),
                      ("isError", .bool true)])
    ∧ (analyze_medical_document exampleUrl loadsInBandError netPlainBody "note" "basic"
          = inBandErrorRecord "basic" (server_analysis_type "basic") exampleUrl
              (.str "Claude refused the request")
       ∧ (analyze_medical_document exampleUrl loadsInBandError netPlainBody "note" "basic").lookup "status"
           = some (.str "error")
       ∧ (analyze_medical_document exampleUrl loadsInBandError netPlainBody "note" "basic").lookup "error"
           = some (.str ("MCP Server Error: " ++ "Claude refused the request"))) :=
  ⟨rfl, rfl, rfl,
    C4_in_band_error_wins_over_envelope_shape exampleUrl "note" "basic" "irrelevant-body"
      "Claude refused the request" loadsInBandError netPlainBody
      inBandErrorEnvelope
      (.obj [("content", .arr [.obj [("text", .str "Claude refused the request")]]),
             ("isError", .bool true)])
      (.obj [("text", .str "Claude refused the request")]) []
      rfl rfl rfl rfl rfl rfl⟩

/-- Claim C7 (amended): for every 200 body that is not classified
SSE-framed (it does not contain `event:` and does not start with `:`)
and parses as a JSON object with neither a `result` nor an `error` field,
the call returns `status = success` with the analysis taken from the
`analysis` field (defaulting to the whole object) and `tokens_used` from
the `tokens_used` field (defaulting to 0). -/
theorem C7_flat_json_is_rest_success
    (url note ty body : String) (o : List (String × Json))
    (loads : String → Except String Json)
    (net : String → Json → Except PyExc HttpResponse)
    (hsse : isSseFramed body = false)
    (hnet : net url (outboundPayload url note ty) = .ok ⟨200, body⟩)
    (hjson : loads body = .ok (.obj o))
    (hres : (Json.obj o).lookup "result" = none)
    (herr : (Json.obj o).lookup "error" = none) :
    analyze_medical_document url loads net note ty
        = restSuccessRecord ty (server_analysis_type ty) url
            (((Json.obj o).lookup "analysis").getD (.obj o))
            (((Json.obj o).lookup "tokens_used").getD (.num 0))
    ∧ (analyze_medical_document url loads net note ty).lookup "status"
        = some (.str "success")
    ∧ (analyze_medical_document url loads net note ty).lookup "analysis"
        = some (((Json.obj o).lookup "analysis").getD (.obj o))
    ∧ (analyze_medical_document url loads net note ty).lookup "tokens_used"
        = some (((Json.obj o).lookup "tokens_used").getD (.num 0)) := by
  have hparse : parseResponseBody loads body = .ok (.obj o) := by
    unfold parseResponseBody
    rw [hsse, hjson]
    rfl
  have hInRes : pyIn "result" (Json.obj o) = .ok false := by
    rw [pyIn_obj, hres]; rfl
  have hInErr : pyIn "error" (Json.obj o) = .ok false := by
    rw [pyIn_obj, herr]; rfl
  have hclass : classifyResult ty (server_analysis_type ty) url (.obj o)
      = .ok (.done (restSuccessRecord ty (server_analysis_type ty) url
          (((Json.obj o).lookup "analysis").getD (.obj o))
          (((Json.obj o).lookup "tokens_used").getD (.num 0)))) := by
    unfold classifyResult
    simp only [hInRes, hInErr, pyGet_obj_eq]
  have hatt : attemptEndpoint loads net ty note url
      = .done (restSuccessRecord ty (server_analysis_type ty) url
          (((Json.obj o).lookup "analysis").getD (.obj o))
          (((Json.obj o).lookup "tokens_used").getD (.num 0))) := by
    rw [attemptEndpoint_200 loads net ty note url body hnet, hparse]
    show (match classifyResult ty (server_analysis_type ty) url (.obj o) with
          | .error e => Attempt.retry (handleException url e)
          | .ok a => a) = _
    rw [hclass]
  refine ⟨?_, ?_, ?_, ?_⟩ <;> rw [analyze_single, hatt] <;> rfl

/-- Witness for C7 (amended) at the spec's concrete instance
`{"analysis": "x", "tokens_used": 5}`. -/
theorem C7_witness :
    isSseFramed plainAnalysisBody = false
    ∧ loadsPlainAnalysis plainAnalysisBody
        = .ok (.obj [("analysis", .str "x"), ("tokens_used", .num 5)])
    ∧ (analyze_medical_document exampleUrl loadsPlainAnalysis netPlainAnalysis "note" "basic"
          = restSuccessRecord "basic" (server_analysis_type "basic") exampleUrl
              (((Json.obj [("analysis", .str "x"), ("tokens_used", .num 5)]).lookup "analysis").getD
                (.obj [("analysis", .str "x"), ("tokens_used", .num 5)]))
              (((Json.obj [("analysis", .str "x"), ("tokens_used", .num 5)]).lookup "tokens_used").getD
                (.num 0))
       ∧ (analyze_medical_document exampleUrl loadsPlainAnalysis netPlainAnalysis "note" "basic").lookup "status"
           = some (.str "success")
       ∧ (analyze_medical_document exampleUrl loadsPlainAnalysis netPlainAnalysis "note" "basic").lookup "analysis"
           = some (((Json.obj [("analysis", .str "x"), ("tokens_used", .num 5)]).lookup "analysis").getD
               (.obj [("analysis", .str "x"), ("tokens_used", .num 5)]))
       ∧ (analyze_medical_document exampleUrl loadsPlainAnalysis netPlainAnalysis "note" "basic").lookup "tokens_used"
           = some (((Json.obj [("analysis", .str "x"), ("tokens_used", .num 5)]).lookup "tokens_used").getD
               (.num 0))) :=
  ⟨rfl, rfl,
    C7_flat_json_is_rest_success exampleUrl "note" "basic" plainAnalysisBody
      [("analysis", .str "x"), ("tokens_used", .num 5)]
      loadsPlainAnalysis netPlainAnalysis rfl rfl rfl rfl rfl⟩

/-- A perfectly flat JSON body that happens to contain the token `event:`
inside a string value, which the format sniff misroutes to the SSE path. -/
def sseLookingBody : String := "\x7b\"analysis\": \"event: demo\", \"tokens_used\": 5\x7d"

/-- The parse of `sseLookingBody`: a JSON object with neither `result`
nor `error`. -/
def sseLookingJson : Json := .obj [("analysis", .str "event: demo"), ("tokens_used", .num 5)]

/-- A `json.loads` that parses exactly `sseLookingBody`. -/
def loadsSseLooking : String → Except String Json := fun s =>
  if s == sseLookingBody then .ok sseLookingJson
  else .error "Expecting value: line 1 column 1 (char 0)"

/-- A transport whose every round-trip answers 200 with `sseLookingBody`. -/
def netSseLooking : String → Json → Except PyExc HttpResponse :=
  fun _ _ => .ok ⟨200, sseLookingBody⟩

/-- Claim C7 (counterexample): the 200 body
`{"analysis": "event: demo", "tokens_used": 5}` parses as a JSON object
with neither `result` nor `error`, yet — because it contains the token
`event:` — the body is classified SSE-framed, no `data:` line is found,
and the call ends in `status = error` with no analysis, not in the
claimed success. -/
theorem C7_counterexample :
    loadsSseLooking sseLookingBody = .ok sseLookingJson
    ∧ sseLookingJson.lookup "result" = none
    ∧ sseLookingJson.lookup "error" = none
    ∧ (analyze_medical_document exampleUrl loadsSseLooking netSseLooking "note" "basic").lookup "status"
        = some (.str "error")
    ∧ (analyze_medical_document exampleUrl loadsSseLooking netSseLooking "note" "basic").lookup "analysis"
        = none :=
  ⟨rfl, rfl, rfl, rfl, rfl⟩

/-! ### Claim C10: image selection in `analyze_medical_images` -/

/-- A vision-model collaborator answering a fixed analysis text. -/
def llmConst : String → List Json → Except PyExc String :=
  fun _ _ => .ok "Synthetic findings"

/-- Two entries, both carrying `image_base64`. -/
def twoValidImages : List PyDict :=
  [[("image_base64", .str "imgA")], [("image_base64", .str "imgB")]]

/-- Claim C10 (counterexample): with `max_images = -1` (an `int` the input
schema does not forbid), Python slicing keeps all but the last entry, so
one image is analyzed — more than the claimed bound `max_images`, and not
"the first max_images entries". -/
theorem C10_counterexample :
    (analyze_medical_images llmConst "q" twoValidImages (-1)).lookup "images_analyzed"
        = some (.num 1)
    ∧ ¬ ((1 : Int) ≤ -1) :=
  ⟨rfl, by decide⟩

lemma imageLoop_length : ∀ (entries : List PyDict) (idx : Nat)
    (bs : List Json) (cs : List String),
    imageLoop entries idx = .ok (bs, cs) → bs.length ≤ entries.length := by
  intro entries
  induction entries with
  | nil =>
    intro idx bs cs h
    injection h with h1
    rw [show bs = ([] : List Json) from congrArg Prod.fst h1.symm]
    exact Nat.le_refl 0
  | cons img rest ih =>
    intro idx bs cs h
    unfold imageLoop at h
    split at h
    · exact Nat.le_succ_of_le (ih _ _ _ h)
    · split at h
      · exact Except.noConfusion h
      · split at h
        · exact Except.noConfusion h
        next bs' cs' heq =>
          injection h with h1
          rw [show bs = _ :: bs' from congrArg Prod.fst h1.symm]
          exact Nat.succ_le_succ (ih _ _ _ heq)

lemma imageLoop_all_skipped : ∀ (entries : List PyDict) (idx : Nat),
    (entries.all fun img => !(dictLookup img "image_base64").isSome) = true →
    imageLoop entries idx = .ok ([], []) := by
  intro entries
  induction entries with
  | nil => intro idx _; rfl
  | cons img rest ih =>
    intro idx h
    simp only [List.all_cons, Bool.and_eq_true, Bool.not_eq_true'] at h
    have hnone : dictLookup img "image_base64" = none := by
      cases hl : dictLookup img "image_base64" with
      | none => rfl
      | some v => rw [hl] at h; exact absurd h.1 (by simp)
    unfold imageLoop
    rw [hnone]
    exact ih _ (by simpa using h.2)

/-- Claim C10 (amended): for every call with a nonnegative `max_images`,
only the first `min(max_images, length)` entries are considered, the
number of images reported analyzed never exceeds `max_images`, a call
whose considered entries all lack `image_base64` returns the fixed
no-valid-images error record without consulting the vision model (the
result is the same for every `llm`), and an entry lacking `image_base64`
is skipped by the extraction loop without failing it. -/
theorem C10_image_selection_bounded
    (analysis_prompt : String) (image_data : List PyDict) (max_images : Int)
    (llm : String → List Json → Except PyExc String) (k : Int)
    (h : 0 ≤ max_images) :
    pySliceTo image_data max_images = image_data.take max_images.toNat
    ∧ ((analyze_medical_images llm analysis_prompt image_data max_images).lookup
          "images_analyzed" = some (.num k) → k ≤ max_images)
    ∧ (((pySliceTo image_data max_images).all
          fun img => !(dictLookup img "image_base64").isSome) = true →
        analyze_medical_images llm analysis_prompt image_data max_images
          = noValidImagesRecord)
    ∧ (∀ (img : PyDict) (rest : List PyDict) (idx : Nat),
        dictLookup img "image_base64" = none →
        imageLoop (img :: rest) idx = imageLoop rest (idx + 1)) := by
  have hslice : pySliceTo image_data max_images = image_data.take max_images.toNat := by
    unfold pySliceTo
    rw [if_pos h]
  refine ⟨hslice, ?_, ?_, ?_⟩
  · intro hk
    unfold analyze_medical_images at hk
    split at hk
    · exact absurd hk (by simp [visionExceptionRecord, Json.lookup, List.find?])
    next bs cs heq =>
      split at hk
      · exact absurd hk (by simp [noValidImagesRecord, Json.lookup, List.find?])
      · split at hk
        · exact absurd hk (by simp [visionExceptionRecord, Json.lookup, List.find?])
        · have hlen : bs.length ≤ (pySliceTo image_data max_images).length :=
            imageLoop_length _ _ _ _ heq
          rw [hslice] at hlen
          have hlen2 : bs.length ≤ max_images.toNat :=
            le_trans hlen (List.length_take_le _ _)
          have hkeq : (bs.length : Int) = k := by
            have := hk
            simp only [visionSuccessRecord, Json.lookup, List.find?] at this
            simp at this
            omega
          omega
  · intro hall
    unfold analyze_medical_images
    rw [imageLoop_all_skipped _ _ hall]
    rfl
  · intro img rest idx hnone
    conv_lhs => rw [imageLoop]
    rw [hnone]

/-- Two entries, neither carrying `image_base64`. -/
def twoKeylessImages : List PyDict :=
  [[("patient_id", .str "p1")], [("modality", .str "ECG")]]

/-- Witness for C10 (amended) at `max_images = 3` with key-less entries. -/
theorem C10_witness :
    (0 : Int) ≤ 3
    ∧ (pySliceTo twoKeylessImages 3 = twoKeylessImages.take (Int.toNat 3)
       ∧ ((analyze_medical_images llmConst "q" twoKeylessImages 3).lookup
             "images_analyzed" = some (.num 0) → (0 : Int) ≤ 3)
       ∧ (((pySliceTo twoKeylessImages 3).all
             fun img => !(dictLookup img "image_base64").isSome) = true →
           analyze_medical_images llmConst "q" twoKeylessImages 3
             = noValidImagesRecord)
       ∧ (∀ (img : PyDict) (rest : List PyDict) (idx : Nat),
           dictLookup img "image_base64" = none →
           imageLoop (img :: rest) idx = imageLoop rest (idx + 1))) :=
  ⟨by decide, C10_image_selection_bounded "q" twoKeylessImages 3 llmConst 0 (by decide)⟩

end Medster
